import Mathlib

/-!
Verification development for the Tomo chatbot serverless handlers.

The definitions below are a shallow embedding of the JavaScript sources:
- `generateChatTitle` embeds the title heuristic of `src/unnamed/part_000`
  (function `generateChatTitle`, lines 228-235);
- `saveToSupabase`, `handler`, `runCompletion` embed the chat relay handler of
  `src/unnamed/part_000` (lines 14-225), with the Supabase store modelled as an
  explicit `Store` value and the external collaborators (identity verifier,
  completion provider, store failure injection) as an `Env` record;
- `groqHandler` embeds the Groq relay of `src/api/chat.js`;
- `newApiHandleDeleteStates` and `apiHandlerDelete` embed the DELETE paths of
  `src/New api/chat-history.js` and `src/api/chat-history.js`.

Strings are modelled as Lean `String`/`List Char`; lengths count characters
(the JS sources only ever measure ASCII text, where this agrees with JS
`.length`). JS `\s` is modelled by its ASCII portion plus NBSP.
-/

namespace Tomo

/-- The characters removed by the title heuristic's
`content.replace(/[#*`_~\[\]()]/g, '')` (the backquote, code point 96,
is written via `Char.ofNat`). -/
def isMarkupChar (c : Char) : Bool :=
  c = '#' || c = '*' || c = Char.ofNat 96 || c = '_' || c = '~' ||
  c = '[' || c = ']' || c = '(' || c = ')'

/-- Whitespace as matched by JS `\s` (ASCII portion plus NBSP). -/
def isWs (c : Char) : Bool :=
  c = ' ' || c = '\t' || c = '\n' || c = '\r' ||
  c = Char.ofNat 11 || c = Char.ofNat 12 || c = Char.ofNat 160

/-- JS `String.prototype.trim`: drop leading and trailing whitespace. -/
def trimWs (s : List Char) : List Char :=
  ((s.dropWhile isWs).reverse.dropWhile isWs).reverse

/-- JS `Array.prototype.join(' ')` on a list of words. -/
def joinWords : List (List Char) → List Char
  | [] => []
  | [w] => w
  | w :: ws => w ++ ' ' :: joinWords ws

/-- The three-dot ellipsis marker appended by the title heuristic. -/
def ellipsisChars : List Char := ['.', '.', '.']

/-- Embedding of `generateChatTitle` (src/unnamed/part_000 lines 228-235):
strip markup characters, trim, split on whitespace runs, keep words of
length > 2, take the first 3, join with single spaces, truncate a result
longer than 20 characters to 17 characters plus `...`, and fall back to
`"New chat"` when the result is empty.  Splitting with `List.splitOnP`
produces empty chunks between adjacent separators; JS `split(/\s+/)` does
not, but the `length > 2` filter removes them identically. -/
def generateChatTitle (content : String) : String :=
  let cleanContent := trimWs (content.data.filter (fun c => !(isMarkupChar c)))
  let words := (cleanContent.splitOnP isWs).filter (fun w => w.length > 2)
  let titleWords := words.take 3
  let title := joinWords titleWords
  let title2 := if title.length > 20 then title.take 17 ++ ellipsisChars else title
  if title2 = [] then "New chat" else title2.asString

/-- The title heuristic as the specification words it (spec §4.2): strip the
fixed markup characters, trim, split on runs of whitespace, discard words of
length ≤ 2, take at most the first 3 surviving words, join with single
spaces; if no words survive return the literal fallback `"New chat"`,
otherwise truncate a result exceeding 20 characters to 17 characters plus an
ellipsis marker. -/
def titleHeuristicSpec (content : String) : String :=
  let words := ((trimWs (content.data.filter (fun c => !(isMarkupChar c)))).splitOnP
    isWs).filter (fun w => w.length > 2)
  if words = [] then "New chat"
  else
    let joined := joinWords (words.take 3)
    if joined.length > 20 then (joined.take 17 ++ ellipsisChars).asString
    else joined.asString

/-- A chat message as carried in the request body (`{ role, content }`). -/
structure Msg where
  role : String
  content : String
deriving DecidableEq, Repr

/-- A row of the Supabase `chats` table as used by the handlers
(`id`, `user_id`, `title`).  Row ids are modelled as `Nat`. -/
structure ChatRow where
  id : Nat
  user_id : String
  title : String
deriving DecidableEq, Repr

/-- A row of the Supabase `messages` table (`chat_id`, `role`, `content`). -/
structure MessageRow where
  chat_id : Nat
  role : String
  content : String
deriving DecidableEq, Repr

/-- The persistence store: the two tables plus the id the next inserted chat
row receives (Supabase issues the id; we model it as a counter). -/
structure Store where
  chats : List ChatRow
  messages : List MessageRow
  nextId : Nat
deriving DecidableEq, Repr

/-- Failure injection for the store collaborator: whether the `chats` insert
and the `messages` insert performed by `saveToSupabase` report an error. -/
structure StoreBehavior where
  chatInsertFails : Bool
  msgInsertFails : Bool
deriving DecidableEq, Repr

/-- Embedding of `saveToSupabase` (src/unnamed/part_000 lines 169-225).
Returns the store after whatever inserts succeeded, together with either the
thrown error message or the `{ newChatId, sessionTitle }` result.  In the
JS, a failing insert leaves the earlier inserts in place and the function
rethrows after logging; the returned `Store` reflects exactly that.
For an empty `messages` list the JS `messages[messages.length - 1]` yields
`undefined`; the handler never calls this with an empty list, and we model
that access with placeholder `"undefined"` fields. -/
def saveToSupabase (userId : String) (messages : List Msg) (generatedText : String)
    (chatId : Option Nat) (sessionTitle : Option String) (beh : StoreBehavior)
    (store : Store) : Store × Except String (Nat × Option String) :=
  match chatId with
  | none =>
    let firstUserContent :=
      ((messages.find? (fun m => m.role = "user")).map Msg.content).getD "New chat"
    let title := generateChatTitle firstUserContent
    if beh.chatInsertFails then
      (store, .error "Failed to create chat")
    else
      let newChatId := store.nextId
      let store1 : Store :=
        { chats := store.chats ++ [{ id := newChatId, user_id := userId, title := title }],
          messages := store.messages,
          nextId := store.nextId + 1 }
      let allMessages := messages ++ [{ role := "assistant", content := generatedText }]
      let inserts := allMessages.map (fun msg =>
        ({ chat_id := newChatId, role := msg.role, content := msg.content } : MessageRow))
      if beh.msgInsertFails then
        (store1, .error "Failed to save messages")
      else
        ({ store1 with messages := store1.messages ++ inserts },
         .ok (newChatId, some title))
  | some cid =>
    let lastUserMessage :=
      match messages.getLast? with
      | some m => m
      | none => { role := "undefined", content := "undefined" }
    let inserts : List MessageRow :=
      [{ chat_id := cid, role := lastUserMessage.role, content := lastUserMessage.content },
       { chat_id := cid, role := "assistant", content := generatedText }]
    if beh.msgInsertFails then
      (store, .error "Failed to append messages")
    else
      ({ store with messages := store.messages ++ inserts }, .ok (cid, sessionTitle))

/-- An event written to the SSE connection in incremental mode: a
`data: {choices:[{delta:{content}}]}` line, the terminal `data: [DONE]`
sentinel, or the inline stream-error event. -/
inductive StreamEvent where
  | delta (content : String)
  | done
  | streamErr (msg : String)
deriving DecidableEq, Repr

/-- The caller-visible outcome of the relay handler: an error status with its
message, a buffered 200 JSON body, or a streamed (200) sequence of SSE
events followed by connection close. -/
inductive Response where
  | error (status : Nat) (msg : String)
  | buffered (content : String) (sessionId : Option Nat) (sessionTitle : Option String)
  | streamed (events : List StreamEvent)
deriving DecidableEq, Repr

/-- Outcome of the streaming completion provider: `streamText` throws before
any SSE output, or it delivers a list of text fragments and then either ends
normally (`midErr = none`) or the reader throws mid-stream. -/
inductive StreamOutcome where
  | initFail (msg : String)
  | chunks (cs : List String) (midErr : Option String)
deriving DecidableEq, Repr

/-- The external collaborators of the relay handler: environment
configuration, the identity verifier (`supabaseAdmin.auth.getUser`, returning
`none` on error, missing user, or thrown exception), the buffered provider
(`generateText`), the streaming provider (`streamText`), and the store
failure injection. -/
structure Env where
  configOk : Bool
  getUser : String → Option String
  genText : Except String String
  streamOut : StreamOutcome
  storeBeh : StoreBehavior

/-- The parsed request: HTTP method, body fields (with `none` for absent
optional fields; the JS defaults are applied inside `handler`), and the
bearer token extracted from the Authorization header. -/
structure ChatRequest where
  method : String
  messages : List Msg
  model : Option String
  stream : Option Bool
  userId : Option String
  chatId : Option Nat
  authToken : Option String

/-- What a run of the relay handler produced: the response, how many times
the completion provider was invoked, how many times `saveToSupabase` was
invoked, and the resulting store. -/
structure HandlerResult where
  response : Response
  providerCalls : Nat
  persistAttempts : Nat
  store : Store
deriving Repr

/-- The static model mapping `languageModels` (src/unnamed/part_000
lines 6-12). -/
def languageModels : List (String × String) :=
  [("grok-4", "grok-4-latest"),
   ("grok-3", "grok-3-latest"),
   ("grok-3-fast", "grok-3-fast-latest"),
   ("grok-3-mini", "grok-3-mini-latest"),
   ("grok-3-mini-fast", "grok-3-mini-fast-latest")]

/-- `languageModels[model]`: lookup in the static model mapping. -/
def lookupModel (m : String) : Option String :=
  (languageModels.find? (fun p => p.1 = m)).map Prod.snd

/-- The completion/persistence phase of the relay handler
(src/unnamed/part_000 lines 65-161), reached after validation and
authentication.  In streaming mode the SSE events are fully determined by
the provider's fragments; the post-`[DONE]` save is fire-and-forget and its
outcome only affects the store.  A mid-stream provider error emits an inline
error event and skips the save.  In buffered mode a `saveToSupabase` throw
propagates to the `catch (generateError)` block, which responds 500 with
`'Failed to generate response: ' + message`. -/
def runCompletion (req : ChatRequest) (env : Env) (store : Store)
    (verifiedUserId : Option String) : HandlerResult :=
  if req.stream.getD true then
    match env.streamOut with
    | .initFail e =>
      ⟨.error 500 ("Failed to initialize AI model: " ++ e), 1, 0, store⟩
    | .chunks cs (some e) =>
      ⟨.streamed (cs.map StreamEvent.delta ++
          [StreamEvent.streamErr ("Stream failed: " ++ e)]), 1, 0, store⟩
    | .chunks cs none =>
      match verifiedUserId with
      | some u =>
        ⟨.streamed (cs.map StreamEvent.delta ++ [StreamEvent.done]), 1, 1,
          (saveToSupabase u req.messages (String.join cs) req.chatId none
            env.storeBeh store).1⟩
      | none =>
        ⟨.streamed (cs.map StreamEvent.delta ++ [StreamEvent.done]), 1, 0, store⟩
  else
    match env.genText with
    | .error e =>
      ⟨.error 500 ("Failed to generate response: " ++ e), 1, 0, store⟩
    | .ok text =>
      match verifiedUserId with
      | some u =>
        match saveToSupabase u req.messages text req.chatId none env.storeBeh store with
        | (store2, .error e) =>
          ⟨.error 500 ("Failed to generate response: " ++ e), 1, 1, store2⟩
        | (store2, .ok (ncid, title)) =>
          ⟨.buffered text (some ncid) title, 1, 1, store2⟩
      | none =>
        ⟨.buffered text req.chatId none, 1, 0, store⟩

/-- Embedding of the relay handler of src/unnamed/part_000 (lines 14-166):
method check, configuration check, `messages` presence check, static model
lookup, optional bearer authentication against the supplied `userId`, then
the completion phase.  The JS merges `getUser` returning an error, a missing
user, and a mismatched `user.id` into one 401; a thrown auth exception gives
a 401 as well, so the verifier is modelled as `String → Option String`. -/
def handler (req : ChatRequest) (env : Env) (store : Store) : HandlerResult :=
  if req.method ≠ "POST" then
    ⟨.error 405 "Method not allowed", 0, 0, store⟩
  else if env.configOk = false then
    ⟨.error 500 "Server configuration missing", 0, 0, store⟩
  else
    match req.messages with
    | [] => ⟨.error 400 "Messages are required and must be an array", 0, 0, store⟩
    | _ :: _ =>
      let model := req.model.getD "grok-4"
      match lookupModel model with
      | none => ⟨.error 400 ("Invalid model: " ++ model), 0, 0, store⟩
      | some _ =>
        match req.userId with
        | none => runCompletion req env store none
        | some uid =>
          match req.authToken with
          | none => ⟨.error 401 "Authentication token required", 0, 0, store⟩
          | some tok =>
            match env.getUser tok with
            | none => ⟨.error 401 "Invalid or unauthorized token", 0, 0, store⟩
            | some sub =>
              if sub = uid then runCompletion req env store (some sub)
              else ⟨.error 401 "Invalid or unauthorized token", 0, 0, store⟩

/-- The `delta.content` fragments carried by a list of SSE events, in
order. -/
def deltaContents : List StreamEvent → List String
  | [] => []
  | StreamEvent.delta c :: es => c :: deltaContents es
  | StreamEvent.done :: es => deltaContents es
  | StreamEvent.streamErr _ :: es => deltaContents es

/-- A JSON field value as far as the Groq handler's validation observes it:
a string, some non-string value, or absent (`undefined`/`null`).  The JS
checks `!message.role || !enum.includes(message.role)` and
`!message.content || typeof message.content !== 'string'`; distinguishing
the non-string values further never changes either check's outcome. -/
inductive JVal where
  | str (s : String)
  | notStr
  | absent
deriving DecidableEq, Repr

/-- A message as received by the Groq handler before validation. -/
structure GMsg where
  role : JVal
  content : JVal
deriving DecidableEq, Repr

/-- The role enumeration of src/api/chat.js line 23. -/
def validRoles : List String := ["system", "user", "assistant"]

/-- How a `JVal` prints inside the JS template-literal error message
(non-string values are not modelled precisely; no claim depends on them). -/
def jvalDisplay : JVal → String
  | .str s => s
  | .notStr => "[object]"
  | .absent => "undefined"

/-- The error message of src/api/chat.js lines 24-26 for an invalid role. -/
def roleErrorMsg (i : Nat) (v : String) : String :=
  "Invalid role at messages[" ++ toString i ++ "]: '" ++ v ++
    "'. Role must be one of: system, user, assistant"

/-- The error message of src/api/chat.js lines 28-31 for invalid content. -/
def contentErrorMsg (i : Nat) : String :=
  "Invalid content at messages[" ++ toString i ++
    "]: Content must be a non-empty string"

/-- The validation loop of src/api/chat.js lines 21-33: the first message
with an invalid role or content (scanning from index `i`) yields its index
and error message; `none` means all messages passed. -/
def validateGroqMessages : List GMsg → Nat → Option (Nat × String)
  | [], _ => none
  | m :: rest, i =>
    match m.role with
    | .str r =>
      if r ∈ validRoles then
        match m.content with
        | .str c => if c = "" then some (i, contentErrorMsg i)
                    else validateGroqMessages rest (i + 1)
        | _ => some (i, contentErrorMsg i)
      else some (i, roleErrorMsg i r)
    | v => some (i, roleErrorMsg i (jvalDisplay v))

/-- A single Groq message passes validation: its role is a string in the
enumeration and its content is a non-empty string. -/
def gmsgValid (m : GMsg) : Bool :=
  (match m.role with
   | .str r => decide (r ∈ validRoles)
   | _ => false) &&
  (match m.content with
   | .str c => !(c = "")
   | _ => false)

/-- Request to the Groq handler of src/api/chat.js. -/
structure GroqRequest where
  method : String
  messages : List GMsg
  stream : Bool
  model : Option String
  userId : Option String

/-- Collaborators of the Groq handler: whether `GROQ_API_KEY` is configured,
and the provider fetch outcome (error status and message, or a body). -/
structure GroqEnv where
  apiKeyOk : Bool
  providerResult : Except (Nat × String) String

/-- Outcome of the Groq handler: HTTP status, the error message if any, and
the number of provider calls made. -/
structure GroqResult where
  status : Nat
  errorMsg : Option String
  providerCalls : Nat
deriving DecidableEq, Repr

/-- Embedding of the Groq relay handler of src/api/chat.js (lines 1-160) up
to the level the claims observe: method check, `messages` presence check,
per-message role/content validation, API-key check, then exactly one
provider call (in streaming mode the 200 status is committed by `writeHead`
before the fetch; provider errors degrade to inline events). -/
def groqHandler (req : GroqRequest) (env : GroqEnv) : GroqResult :=
  if req.method ≠ "POST" then ⟨405, some "Method not allowed", 0⟩
  else if req.messages.isEmpty then
    ⟨400, some "Messages are required and must be an array", 0⟩
  else
    match validateGroqMessages req.messages 0 with
    | some (_, msg) => ⟨400, some msg, 0⟩
    | none =>
      if env.apiKeyOk = false then ⟨500, some "API key not configured", 0⟩
      else if req.stream then ⟨200, none, 1⟩
      else
        match env.providerResult with
        | .error (st, e) => ⟨st, some e, 1⟩
        | .ok _ => ⟨200, none, 1⟩

/-- Supabase `messages` delete filtered by `chat_id` (`.eq('chat_id', id)`). -/
def deleteMessagesByChat (cid : Nat) (s : Store) : Store :=
  { s with messages := s.messages.filter (fun m => !(m.chat_id = cid)) }

/-- Supabase `chats` delete filtered by `id` (`.eq('id', id)`). -/
def deleteChatById (cid : Nat) (s : Store) : Store :=
  { s with chats := s.chats.filter (fun c => !(c.id = cid)) }

/-- Embedding of `handleDelete` of src/New api/chat-history.js
(lines 96-204) as the sequence of store states it passes through, initial
state included.  Single-session branch: verify the chat belongs to the user
(404 leaves the store untouched), delete its messages, then delete the chat.
All-sessions branch: collect the user's chat ids; if there are any, delete
all their messages, then delete all the user's chats. -/
def newApiHandleDeleteStates (uid : String) (sessionId : Option Nat)
    (store : Store) : List Store :=
  match sessionId with
  | some sid =>
    match store.chats.find? (fun c => c.id = sid && c.user_id = uid) with
    | none => [store]
    | some _ =>
      let s1 := deleteMessagesByChat sid store
      let s2 := deleteChatById sid s1
      [store, s1, s2]
  | none =>
    let chatIds := (store.chats.filter (fun c => c.user_id = uid)).map ChatRow.id
    if chatIds.isEmpty then [store]
    else
      let s1 : Store :=
        { store with
          messages := store.messages.filter (fun m => !(chatIds.contains m.chat_id)) }
      let s2 : Store :=
        { s1 with chats := s1.chats.filter (fun c => !(c.user_id = uid)) }
      [store, s1, s2]

/-- Embedding of the DELETE branch of src/api/chat-history.js
(lines 30-41): it issues a single delete on the `chats` table (filtered by
id and owner, or by owner alone) and never touches the `messages` table. -/
def apiHandlerDelete (uid : String) (sessionId : Option Nat) (store : Store) : Store :=
  match sessionId with
  | some sid =>
    { store with
      chats := store.chats.filter (fun c => !(c.id = sid && c.user_id = uid)) }
  | none =>
    { store with chats := store.chats.filter (fun c => !(c.user_id = uid)) }

/-- No message row is orphaned: every message's parent chat exists. -/
def noOrphans (s : Store) : Prop :=
  ∀ m ∈ s.messages, ∃ c ∈ s.chats, c.id = m.chat_id

instance (s : Store) : Decidable (noOrphans s) := by
  unfold noOrphans
  infer_instance

/-- An empty store, used by the concrete witnesses. -/
def emptyStore : Store := ⟨[], [], 0⟩

/-- A stub identity verifier mapping the token "tok" to subject "u1". -/
def stubVerifier : String → Option String :=
  fun t => if t = "tok" then some "u1" else none

end Tomo

namespace Tomo

theorem joinWords_cons_length (w : List Char) (l : List (List Char)) :
    w.length ≤ (joinWords (w :: l)).length := by
  cases l with
  | nil => simp [joinWords]
  | cons x l' => simp [joinWords]

theorem generateChatTitle_eq_spec (s : String) :
    generateChatTitle s = titleHeuristicSpec s := by
  simp only [generateChatTitle, titleHeuristicSpec]
  generalize h : ((trimWs (s.data.filter fun c => !(isMarkupChar c))).splitOnP
      isWs).filter (fun w => w.length > 2) = ws
  have hmem : ∀ w ∈ ws, 2 < w.length := by
    intro w hw
    rw [← h] at hw
    simpa using (List.mem_filter.mp hw).2
  cases ws with
  | nil => simp [joinWords]
  | cons w ws' =>
    have hw : 2 < w.length := hmem w (by simp)
    have hne : joinWords (w :: ws'.take 2) ≠ [] := by
      have hlen := joinWords_cons_length w (ws'.take 2)
      intro hnil
      rw [hnil] at hlen
      simp only [List.length_nil, Nat.le_zero] at hlen
      omega
    simp only [List.take_succ_cons]
    by_cases hlong : 20 < (joinWords (w :: ws'.take 2)).length
    · have h3 : List.take 17 (joinWords (w :: ws'.take 2)) ++ ellipsisChars ≠ [] := by
        simp [ellipsisChars]
      simp [hlong, h3]
    · simp [hlong, hne]

theorem generateChatTitle_ne_empty (s : String) : generateChatTitle s ≠ "" := by
  simp only [generateChatTitle]
  split <;> split
  · decide
  · rename_i h
    intro h2
    exact h (congrArg String.data h2)
  · decide
  · rename_i h
    intro h2
    exact h (congrArg String.data h2)

/-- C5: the title heuristic strips the markup characters, trims, splits on
whitespace runs, discards words of length ≤ 2, keeps at most the first 3
surviving words joined with single spaces, truncates a result longer than 20
characters to 17 characters plus an ellipsis, and falls back to "New chat";
`generateChatTitle` agrees with the spec's procedure on every input, and the
three concrete examples of the spec evaluate as stated. -/
theorem C5_title_heuristic :
    (∀ s : String, generateChatTitle s = titleHeuristicSpec s) ∧
    generateChatTitle "## Hello World from AI!!" = "Hello World from" ∧
    generateChatTitle "" = "New chat" ∧
    generateChatTitle "a an to it" = "New chat" ∧
    generateChatTitle "abcdefgh ijklmnop qrstuvw" = "abcdefgh ijklmnop..." :=
  ⟨generateChatTitle_eq_spec, by decide, by decide, by decide, by decide⟩

/-- C7: a request whose supplied `model` is not a key of the static
`languageModels` mapping is answered with a 400 error and the completion
provider is never invoked (the provider call count of the run is zero). -/
theorem C7_unknown_model (req : ChatRequest) (env : Env) (store : Store) (m : String)
    (hmethod : req.method = "POST") (hcfg : env.configOk = true)
    (hm : req.model = some m) (hunknown : lookupModel m = none) :
    (∃ msg, (handler req env store).response = Response.error 400 msg) ∧
    (handler req env store).providerCalls = 0 := by
  rcases hms : req.messages with _ | ⟨m0, ms⟩
  · refine ⟨⟨"Messages are required and must be an array", ?_⟩, ?_⟩ <;>
      simp [handler, hmethod, hcfg, hms]
  · refine ⟨⟨"Invalid model: " ++ m, ?_⟩, ?_⟩ <;>
      simp [handler, hmethod, hcfg, hms, hm, hunknown]

theorem C7_unknown_model_witness :
    (∃ msg, (handler ⟨"POST", [⟨"user", "hi"⟩], some "gpt-5", some false, none, none, none⟩
        ⟨true, stubVerifier, .ok "resp", .chunks ["resp"] none, ⟨false, false⟩⟩
        emptyStore).response = Response.error 400 msg) ∧
    (handler ⟨"POST", [⟨"user", "hi"⟩], some "gpt-5", some false, none, none, none⟩
        ⟨true, stubVerifier, .ok "resp", .chunks ["resp"] none, ⟨false, false⟩⟩
        emptyStore).providerCalls = 0 :=
  C7_unknown_model _ _ _ "gpt-5" rfl rfl rfl rfl

/-- C8: a request that supplies a `userId` but no bearer token, or a token
the identity verifier rejects or maps to a different subject, is answered
with a 401 error; `saveToSupabase` is never invoked and the store is
unchanged. -/
theorem C8_auth_mismatch (req : ChatRequest) (env : Env) (store : Store) (uid : String)
    (hmethod : req.method = "POST") (hcfg : env.configOk = true)
    (hne : req.messages ≠ [])
    (hmodel : (lookupModel (req.model.getD "grok-4")).isSome = true)
    (huid : req.userId = some uid)
    (hbad : req.authToken = none ∨
      ∃ tok, req.authToken = some tok ∧
        (env.getUser tok = none ∨ ∃ s, env.getUser tok = some s ∧ s ≠ uid)) :
    (∃ msg, (handler req env store).response = Response.error 401 msg) ∧
    (handler req env store).persistAttempts = 0 ∧
    (handler req env store).store = store := by
  rcases hms : req.messages with _ | ⟨m0, ms⟩
  · exact absurd hms hne
  · obtain ⟨pm, hpm⟩ := Option.isSome_iff_exists.mp hmodel
    rcases hbad with htok | ⟨tok, htok, hver⟩
    · refine ⟨⟨"Authentication token required", ?_⟩, ?_, ?_⟩ <;>
        simp [handler, hmethod, hcfg, hms, hpm, huid, htok]
    · rcases hver with hv | ⟨sub, hv, hsub⟩
      · refine ⟨⟨"Invalid or unauthorized token", ?_⟩, ?_, ?_⟩ <;>
          simp [handler, hmethod, hcfg, hms, hpm, huid, htok, hv]
      · refine ⟨⟨"Invalid or unauthorized token", ?_⟩, ?_, ?_⟩ <;>
          simp [handler, hmethod, hcfg, hms, hpm, huid, htok, hv, hsub]

theorem C8_auth_mismatch_witness :
    (∃ msg, (handler ⟨"POST", [⟨"user", "hi"⟩], some "grok-4", some false,
        some "u2", none, some "tok"⟩
        ⟨true, stubVerifier, .ok "resp", .chunks ["resp"] none, ⟨false, false⟩⟩
        emptyStore).response = Response.error 401 msg) ∧
    (handler ⟨"POST", [⟨"user", "hi"⟩], some "grok-4", some false,
        some "u2", none, some "tok"⟩
        ⟨true, stubVerifier, .ok "resp", .chunks ["resp"] none, ⟨false, false⟩⟩
        emptyStore).persistAttempts = 0 ∧
    (handler ⟨"POST", [⟨"user", "hi"⟩], some "grok-4", some false,
        some "u2", none, some "tok"⟩
        ⟨true, stubVerifier, .ok "resp", .chunks ["resp"] none, ⟨false, false⟩⟩
        emptyStore).store = emptyStore :=
  C8_auth_mismatch _ _ _ "u2" rfl rfl (by decide) (by decide) rfl
    (Or.inr ⟨"tok", rfl, Or.inr ⟨"u1", rfl, by decide⟩⟩)

/-- C3: a valid authenticated buffered request with no session identifier
creates one session row titled by the title heuristic applied to the first
user-role message, inserts every request message plus the generated
assistant message (`len(messages) + 1` rows) tagged with the new session id,
and responds with that session id and a non-empty title. -/
theorem C3_new_session (req : ChatRequest) (env : Env) (store : Store)
    (uid tok text : String) (m0 : Msg)
    (hmethod : req.method = "POST") (hcfg : env.configOk = true)
    (hne : req.messages ≠ [])
    (hmodel : (lookupModel (req.model.getD "grok-4")).isSome = true)
    (hstream : req.stream = some false)
    (huid : req.userId = some uid) (htok : req.authToken = some tok)
    (hver : env.getUser tok = some uid)
    (hchat : req.chatId = none)
    (hgen : env.genText = Except.ok text)
    (hbeh : env.storeBeh = ⟨false, false⟩)
    (hfirst : req.messages.find? (fun m => m.role = "user") = some m0) :
    (handler req env store).response =
      Response.buffered text (some store.nextId) (some (generateChatTitle m0.content)) ∧
    generateChatTitle m0.content ≠ "" ∧
    (handler req env store).store.chats =
      store.chats ++ [⟨store.nextId, uid, generateChatTitle m0.content⟩] ∧
    (handler req env store).store.messages =
      store.messages ++ (req.messages ++ [Msg.mk "assistant" text]).map
        (fun m => (⟨store.nextId, m.role, m.content⟩ : MessageRow)) ∧
    (handler req env store).store.messages.length =
      store.messages.length + (req.messages.length + 1) ∧
    (∀ mr ∈ (handler req env store).store.messages.drop store.messages.length,
      mr.chat_id = store.nextId) ∧
    (handler req env store).persistAttempts = 1 := by
  have hsave : saveToSupabase uid req.messages text none none ⟨false, false⟩ store =
      ({ chats := store.chats ++ [⟨store.nextId, uid, generateChatTitle m0.content⟩],
         messages := store.messages ++ (req.messages ++ [Msg.mk "assistant" text]).map
           (fun m => (⟨store.nextId, m.role, m.content⟩ : MessageRow)),
         nextId := store.nextId + 1 },
       .ok (store.nextId, some (generateChatTitle m0.content))) := by
    simp [saveToSupabase, hfirst]
  have hrun : handler req env store =
      ⟨Response.buffered text (some store.nextId) (some (generateChatTitle m0.content)),
        1, 1,
        { chats := store.chats ++ [⟨store.nextId, uid, generateChatTitle m0.content⟩],
          messages := store.messages ++ (req.messages ++ [Msg.mk "assistant" text]).map
            (fun m => (⟨store.nextId, m.role, m.content⟩ : MessageRow)),
          nextId := store.nextId + 1 }⟩ := by
    rcases hms : req.messages with _ | ⟨mh, mt⟩
    · exact absurd hms hne
    · rw [hms] at hsave
      obtain ⟨pm, hpm⟩ := Option.isSome_iff_exists.mp hmodel
      simp [handler, runCompletion, hmethod, hcfg, hms, hpm, huid, htok, hver,
        hstream, hgen, hchat, hbeh, hsave]
  refine ⟨?_, generateChatTitle_ne_empty _, ?_, ?_, ?_, ?_, ?_⟩
  · rw [hrun]
  · rw [hrun]
  · rw [hrun]
  · rw [hrun]
    simp [List.length_append]
  · rw [hrun]
    simp only [HandlerResult.store]
    rw [List.drop_left]
    simp only [List.mem_map]
    rintro mr ⟨m, hm, rfl⟩
    rfl
  · rw [hrun]

theorem C3_new_session_witness :
    (handler ⟨"POST", [⟨"user", "Hello world program"⟩], some "grok-4", some false,
        some "u1", none, some "tok"⟩
        ⟨true, stubVerifier, .ok "resp", .chunks ["resp"] none, ⟨false, false⟩⟩
        emptyStore).response =
      Response.buffered "resp" (some emptyStore.nextId)
        (some (generateChatTitle "Hello world program")) ∧
    generateChatTitle "Hello world program" ≠ "" ∧
    (handler ⟨"POST", [⟨"user", "Hello world program"⟩], some "grok-4", some false,
        some "u1", none, some "tok"⟩
        ⟨true, stubVerifier, .ok "resp", .chunks ["resp"] none, ⟨false, false⟩⟩
        emptyStore).store.chats =
      emptyStore.chats ++ [⟨emptyStore.nextId, "u1", generateChatTitle "Hello world program"⟩] ∧
    (handler ⟨"POST", [⟨"user", "Hello world program"⟩], some "grok-4", some false,
        some "u1", none, some "tok"⟩
        ⟨true, stubVerifier, .ok "resp", .chunks ["resp"] none, ⟨false, false⟩⟩
        emptyStore).store.messages =
      emptyStore.messages ++
        (([Msg.mk "user" "Hello world program"]) ++ [Msg.mk "assistant" "resp"]).map
          (fun m => (⟨emptyStore.nextId, m.role, m.content⟩ : MessageRow)) ∧
    (handler ⟨"POST", [⟨"user", "Hello world program"⟩], some "grok-4", some false,
        some "u1", none, some "tok"⟩
        ⟨true, stubVerifier, .ok "resp", .chunks ["resp"] none, ⟨false, false⟩⟩
        emptyStore).store.messages.length =
      emptyStore.messages.length + (([⟨"user", "Hello world program"⟩] : List Msg).length + 1) ∧
    (∀ mr ∈ (handler ⟨"POST", [⟨"user", "Hello world program"⟩], some "grok-4", some false,
        some "u1", none, some "tok"⟩
        ⟨true, stubVerifier, .ok "resp", .chunks ["resp"] none, ⟨false, false⟩⟩
        emptyStore).store.messages.drop emptyStore.messages.length,
      mr.chat_id = emptyStore.nextId) ∧
    (handler ⟨"POST", [⟨"user", "Hello world program"⟩], some "grok-4", some false,
        some "u1", none, some "tok"⟩
        ⟨true, stubVerifier, .ok "resp", .chunks ["resp"] none, ⟨false, false⟩⟩
        emptyStore).persistAttempts = 1 :=
  C3_new_session _ _ _ "u1" "tok" "resp" ⟨"user", "Hello world program"⟩
    rfl rfl (by decide) (by decide) rfl rfl rfl rfl rfl rfl rfl (by decide)

/-- C4: a valid authenticated buffered request that supplies a session
identifier appends exactly two message rows — the last input message and the
generated assistant reply — tagged with that identifier; the `chats` table
is untouched (no title regenerated) and the response carries the supplied
identifier with a `null` title. -/
theorem C4_existing_session (req : ChatRequest) (env : Env) (store : Store)
    (uid tok text : String) (cid : Nat) (mL : Msg)
    (hmethod : req.method = "POST") (hcfg : env.configOk = true)
    (hne : req.messages ≠ [])
    (hmodel : (lookupModel (req.model.getD "grok-4")).isSome = true)
    (hstream : req.stream = some false)
    (huid : req.userId = some uid) (htok : req.authToken = some tok)
    (hver : env.getUser tok = some uid)
    (hchat : req.chatId = some cid)
    (hgen : env.genText = Except.ok text)
    (hbeh : env.storeBeh = ⟨false, false⟩)
    (hlast : req.messages.getLast? = some mL) :
    (handler req env store).response = Response.buffered text (some cid) none ∧
    (handler req env store).store.chats = store.chats ∧
    (handler req env store).store.messages =
      store.messages ++ [⟨cid, mL.role, mL.content⟩, ⟨cid, "assistant", text⟩] ∧
    (handler req env store).store.messages.length = store.messages.length + 2 ∧
    (∀ mr ∈ (handler req env store).store.messages.drop store.messages.length,
      mr.chat_id = cid) ∧
    (handler req env store).persistAttempts = 1 := by
  have hsave : saveToSupabase uid req.messages text (some cid) none ⟨false, false⟩ store =
      ({ store with messages := store.messages ++
          [⟨cid, mL.role, mL.content⟩, ⟨cid, "assistant", text⟩] },
       .ok (cid, none)) := by
    simp [saveToSupabase, hlast]
  have hrun : handler req env store =
      ⟨Response.buffered text (some cid) none, 1, 1,
        { store with messages := store.messages ++
            [⟨cid, mL.role, mL.content⟩, ⟨cid, "assistant", text⟩] }⟩ := by
    rcases hms : req.messages with _ | ⟨mh, mt⟩
    · exact absurd hms hne
    · rw [hms] at hsave
      obtain ⟨pm, hpm⟩ := Option.isSome_iff_exists.mp hmodel
      simp [handler, runCompletion, hmethod, hcfg, hms, hpm, huid, htok, hver,
        hstream, hgen, hchat, hbeh, hsave]
  refine ⟨?_, ?_, ?_, ?_, ?_, ?_⟩
  · rw [hrun]
  · rw [hrun]
  · rw [hrun]
  · rw [hrun]
    simp [List.length_append]
  · rw [hrun]
    simp only [HandlerResult.store]
    rw [List.drop_left]
    intro mr hmr
    simp only [List.mem_cons, List.not_mem_nil, or_false] at hmr
    rcases hmr with rfl | rfl
    · rfl
    · rfl
  · rw [hrun]

theorem C4_existing_session_witness :
    (handler ⟨"POST", [⟨"user", "More please"⟩], some "grok-4", some false,
        some "u1", some 7, some "tok"⟩
        ⟨true, stubVerifier, .ok "resp", .chunks ["resp"] none, ⟨false, false⟩⟩
        emptyStore).response = Response.buffered "resp" (some 7) none ∧
    (handler ⟨"POST", [⟨"user", "More please"⟩], some "grok-4", some false,
        some "u1", some 7, some "tok"⟩
        ⟨true, stubVerifier, .ok "resp", .chunks ["resp"] none, ⟨false, false⟩⟩
        emptyStore).store.chats = emptyStore.chats ∧
    (handler ⟨"POST", [⟨"user", "More please"⟩], some "grok-4", some false,
        some "u1", some 7, some "tok"⟩
        ⟨true, stubVerifier, .ok "resp", .chunks ["resp"] none, ⟨false, false⟩⟩
        emptyStore).store.messages =
      emptyStore.messages ++ [⟨7, "user", "More please"⟩, ⟨7, "assistant", "resp"⟩] ∧
    (handler ⟨"POST", [⟨"user", "More please"⟩], some "grok-4", some false,
        some "u1", some 7, some "tok"⟩
        ⟨true, stubVerifier, .ok "resp", .chunks ["resp"] none, ⟨false, false⟩⟩
        emptyStore).store.messages.length = emptyStore.messages.length + 2 ∧
    (∀ mr ∈ (handler ⟨"POST", [⟨"user", "More please"⟩], some "grok-4", some false,
        some "u1", some 7, some "tok"⟩
        ⟨true, stubVerifier, .ok "resp", .chunks ["resp"] none, ⟨false, false⟩⟩
        emptyStore).store.messages.drop emptyStore.messages.length,
      mr.chat_id = 7) ∧
    (handler ⟨"POST", [⟨"user", "More please"⟩], some "grok-4", some false,
        some "u1", some 7, some "tok"⟩
        ⟨true, stubVerifier, .ok "resp", .chunks ["resp"] none, ⟨false, false⟩⟩
        emptyStore).persistAttempts = 1 :=
  C4_existing_session _ _ _ "u1" "tok" "resp" 7 ⟨"user", "More please"⟩
    rfl rfl (by decide) (by decide) rfl rfl rfl rfl rfl rfl rfl (by decide)

theorem deltaContents_map_delta (cs : List String) :
    deltaContents (cs.map StreamEvent.delta ++ [StreamEvent.done]) = cs := by
  induction cs with
  | nil => rfl
  | cons c cs ih => simpa [deltaContents] using ih

/-- C6: for a deterministic provider — one whose streaming fragments
concatenate to the same text its buffered form returns — a valid request
run in incremental mode forwards `delta.content` fragments whose in-order
concatenation is exactly the text the buffered run of the identical request
returns. -/
theorem C6_stream_matches_buffered (req : ChatRequest) (env : Env) (store : Store)
    (cs : List String) (text : String)
    (hmethod : req.method = "POST") (hcfg : env.configOk = true)
    (hne : req.messages ≠ [])
    (hmodel : (lookupModel (req.model.getD "grok-4")).isSome = true)
    (hauth : req.userId = none ∨
      ∃ uid tok, req.userId = some uid ∧ req.authToken = some tok ∧
        env.getUser tok = some uid ∧ env.storeBeh = ⟨false, false⟩)
    (hstream : env.streamOut = StreamOutcome.chunks cs none)
    (hgen : env.genText = Except.ok text)
    (hdet : String.join cs = text) :
    ∃ evs sid ti,
      (handler { req with stream := some true } env store).response =
        Response.streamed evs ∧
      (handler { req with stream := some false } env store).response =
        Response.buffered text sid ti ∧
      String.join (deltaContents evs) = text := by
  obtain ⟨pm, hpm⟩ := Option.isSome_iff_exists.mp hmodel
  have hstreamresp : (handler { req with stream := some true } env store).response =
      Response.streamed (cs.map StreamEvent.delta ++ [StreamEvent.done]) := by
    rcases hms : req.messages with _ | ⟨mh, mt⟩
    · exact absurd hms hne
    rcases hauth with huid | ⟨uid, tok, huid, htok, hver, hbeh⟩
    · simp [handler, runCompletion, hmethod, hcfg, hms, hpm, huid, hstream]
    · simp [handler, runCompletion, hmethod, hcfg, hms, hpm, huid, htok, hver, hstream]
  have hbufresp : ∃ sid ti,
      (handler { req with stream := some false } env store).response =
        Response.buffered text sid ti := by
    rcases hms : req.messages with _ | ⟨mh, mt⟩
    · exact absurd hms hne
    rcases hauth with huid | ⟨uid, tok, huid, htok, hver, hbeh⟩
    · exact ⟨req.chatId, none, by
        simp [handler, runCompletion, hmethod, hcfg, hms, hpm, huid, hgen]⟩
    · rcases hchat : req.chatId with _ | cid
      · refine ⟨some store.nextId,
          some (generateChatTitle
            ((((mh :: mt).find? (fun m => m.role = "user")).map Msg.content).getD
              "New chat")), ?_⟩
        simp [handler, runCompletion, saveToSupabase, hmethod, hcfg, hms, hpm,
          huid, htok, hver, hgen, hchat, hbeh]
      · refine ⟨some cid, none, ?_⟩
        simp [handler, runCompletion, saveToSupabase, hmethod, hcfg, hms, hpm,
          huid, htok, hver, hgen, hchat, hbeh]
  obtain ⟨sid, ti, hbuf⟩ := hbufresp
  exact ⟨cs.map StreamEvent.delta ++ [StreamEvent.done], sid, ti, hstreamresp, hbuf,
    by rw [deltaContents_map_delta]; exact hdet⟩

theorem C6_stream_matches_buffered_witness :
    ∃ evs sid ti,
      (handler { (⟨"POST", [⟨"user", "hi"⟩], some "grok-4", none, none, none, none⟩ :
          ChatRequest) with stream := some true }
        ⟨true, stubVerifier, .ok "AB", .chunks ["A", "B"] none, ⟨false, false⟩⟩
        emptyStore).response = Response.streamed evs ∧
      (handler { (⟨"POST", [⟨"user", "hi"⟩], some "grok-4", none, none, none, none⟩ :
          ChatRequest) with stream := some false }
        ⟨true, stubVerifier, .ok "AB", .chunks ["A", "B"] none, ⟨false, false⟩⟩
        emptyStore).response = Response.buffered "AB" sid ti ∧
      String.join (deltaContents evs) = "AB" :=
  C6_stream_matches_buffered _ _ _ ["A", "B"] "AB"
    rfl rfl (by decide) (by decide) (Or.inl rfl) rfl rfl rfl

/-- C1 counterexample: a buffered request whose completion was computed
successfully (`generateText` returned "Hi!") but whose persistence save
fails is answered 500 with the save error, not 200 with the completion
text — the persistence failure does override the successful completion. -/
theorem C1_counterexample :
    (handler ⟨"POST", [⟨"user", "Hello there"⟩], some "grok-4", some false,
        some "u1", none, some "tok"⟩
      ⟨true, stubVerifier, .ok "Hi!", .chunks ["Hi!"] none, ⟨false, true⟩⟩
      emptyStore).response =
      Response.error 500 "Failed to generate response: Failed to save messages" := by
  decide

/-- C1 (amended): in incremental mode a persistence failure never changes
the caller-visible outcome — for every store behaviour, failing saves
included, the response is exactly the forwarded fragments plus the terminal
sentinel, with the save attempted after the stream closed.  In buffered
mode, however, a persistence save failure overrides the computed
completion: the handler responds 500 carrying the save error instead of
responding 200 with the completion text. -/
theorem C1_persistence_failure (req : ChatRequest) (env : Env) (store : Store)
    (uid tok : String)
    (hmethod : req.method = "POST") (hcfg : env.configOk = true)
    (hne : req.messages ≠ [])
    (hmodel : (lookupModel (req.model.getD "grok-4")).isSome = true)
    (huid : req.userId = some uid) (htok : req.authToken = some tok)
    (hver : env.getUser tok = some uid) :
    (∀ cs, req.stream = some true → env.streamOut = StreamOutcome.chunks cs none →
      (handler req env store).response =
        Response.streamed (cs.map StreamEvent.delta ++ [StreamEvent.done]) ∧
      (handler req env store).persistAttempts = 1) ∧
    (∀ text e, req.stream = some false → env.genText = Except.ok text →
      (saveToSupabase uid req.messages text req.chatId none env.storeBeh store).2 =
        Except.error e →
      (handler req env store).response =
        Response.error 500 ("Failed to generate response: " ++ e)) := by
  obtain ⟨pm, hpm⟩ := Option.isSome_iff_exists.mp hmodel
  constructor
  · intro cs hstream hout
    rcases hms : req.messages with _ | ⟨mh, mt⟩
    · exact absurd hms hne
    constructor <;>
      simp [handler, runCompletion, hmethod, hcfg, hms, hpm, huid, htok, hver,
        hstream, hout]
  · intro text e hstream hgen hsave
    rcases hms : req.messages with _ | ⟨mh, mt⟩
    · exact absurd hms hne
    rw [hms] at hsave
    rcases hsv : saveToSupabase uid (mh :: mt) text req.chatId none env.storeBeh store
      with ⟨store2, res⟩
    rw [hsv] at hsave
    simp only at hsave
    subst hsave
    simp [handler, runCompletion, hmethod, hcfg, hms, hpm, huid, htok, hver,
      hstream, hgen, hsv]

theorem C1_persistence_failure_witness :
    (handler ⟨"POST", [⟨"user", "Hello there"⟩], some "grok-4", some true,
        some "u1", none, some "tok"⟩
      ⟨true, stubVerifier, .ok "Hi!", .chunks ["Hi"] none, ⟨false, true⟩⟩
      emptyStore).response =
      Response.streamed (["Hi"].map StreamEvent.delta ++ [StreamEvent.done]) ∧
    (handler ⟨"POST", [⟨"user", "Hello there"⟩], some "grok-4", some false,
        some "u1", none, some "tok"⟩
      ⟨true, stubVerifier, .ok "Hi!", .chunks ["Hi"] none, ⟨false, true⟩⟩
      emptyStore).response =
      Response.error 500 ("Failed to generate response: " ++ "Failed to save messages") :=
  ⟨((C1_persistence_failure _ _ _ "u1" "tok" rfl rfl (by decide) (by decide)
      rfl rfl rfl).1 ["Hi"] rfl rfl).1,
   (C1_persistence_failure _ _ _ "u1" "tok" rfl rfl (by decide) (by decide)
      rfl rfl rfl).2 "Hi!" "Failed to save messages" rfl rfl rfl⟩

/-- C2 counterexample: the relay handler of src/unnamed/part_000 performs no
per-message role or content validation: a request whose only message has the
role "robot" passes its validation, the completion provider is invoked
(provider call count 1), and the handler responds 200 — not a 400 before the
provider call. -/
theorem C2_counterexample :
    (handler ⟨"POST", [⟨"robot", "hello"⟩], some "grok-4", some false,
        none, none, none⟩
      ⟨true, stubVerifier, .ok "resp", .chunks ["resp"] none, ⟨false, false⟩⟩
      emptyStore).response = Response.buffered "resp" none none ∧
    (handler ⟨"POST", [⟨"robot", "hello"⟩], some "grok-4", some false,
        none, none, none⟩
      ⟨true, stubVerifier, .ok "resp", .chunks ["resp"] none, ⟨false, false⟩⟩
      emptyStore).providerCalls = 1 :=
  ⟨by decide, by decide⟩

theorem validateGroqMessages_none (l : List GMsg) (i : Nat)
    (h : validateGroqMessages l i = none) : ∀ m ∈ l, gmsgValid m = true := by
  induction l generalizing i with
  | nil => simp
  | cons m rest ih =>
    intro x hx
    rcases hrole : m.role with r | _ | _
    · simp only [validateGroqMessages, hrole] at h
      by_cases hin : r ∈ validRoles
      · rcases hcont : m.content with c | _ | _
        · by_cases hc : c = ""
          · simp [hin, hcont, hc] at h
          · simp only [hin, if_true, hcont, hc, if_false] at h
            cases hx with
            | head => simp [gmsgValid, hrole, hin, hcont, hc]
            | tail _ hx => exact ih (i + 1) (by simpa using h) x hx
        · simp [hin, hcont] at h
        · simp [hin, hcont] at h
      · simp [hin] at h
    · simp only [validateGroqMessages, hrole] at h
      simp at h
    · simp only [validateGroqMessages, hrole] at h
      simp at h

/-- C2 (amended): the Groq relay handler of src/api/chat.js does fail with a
400 validation error before invoking the completion provider whenever some
message has a role outside the enumeration or a content that is not a
non-empty string; the relay handler of src/unnamed/part_000 performs no such
per-message validation and invokes the provider regardless (see the
counterexample). -/
theorem C2_groq_validation (req : GroqRequest) (env : GroqEnv)
    (hmethod : req.method = "POST")
    (hbad : ∃ m ∈ req.messages, gmsgValid m = false) :
    (groqHandler req env).status = 400 ∧ (groqHandler req env).providerCalls = 0 := by
  obtain ⟨m, hm, hmv⟩ := hbad
  have hne : req.messages.isEmpty = false := by
    cases hml : req.messages with
    | nil => rw [hml] at hm; simp at hm
    | cons a l => simp [hml]
  rcases hv : validateGroqMessages req.messages 0 with _ | ⟨j, msg⟩
  · have := validateGroqMessages_none _ _ hv m hm
    rw [this] at hmv
    exact absurd hmv (by simp)
  · constructor <;> simp [groqHandler, hmethod, hne, hv]

theorem C2_groq_validation_witness :
    (groqHandler ⟨"POST", [⟨JVal.str "robot", JVal.str "hello"⟩], false, none, none⟩
      ⟨true, .ok "body"⟩).status = 400 ∧
    (groqHandler ⟨"POST", [⟨JVal.str "robot", JVal.str "hello"⟩], false, none, none⟩
      ⟨true, .ok "body"⟩).providerCalls = 0 :=
  C2_groq_validation _ _ rfl
    ⟨⟨JVal.str "robot", JVal.str "hello"⟩, by decide, by decide⟩

/-- C9 counterexample: the DELETE path of src/api/chat-history.js deletes
only the chat row and never its message rows: starting from an orphan-free
store holding one session with one message, its single-session delete leaves
a state in which the message's parent session no longer exists. -/
theorem C9_counterexample :
    noOrphans (⟨[⟨1, "u", "T"⟩], [⟨1, "user", "hi"⟩], 2⟩ : Store) ∧
    ¬ noOrphans (apiHandlerDelete "u" (some 1)
        ⟨[⟨1, "u", "T"⟩], [⟨1, "user", "hi"⟩], 2⟩) := by
  constructor <;> decide

/-- C9 (amended): the deletion handler of src/New api/chat-history.js does
delete message rows before the session row(s): starting from a store with no
orphaned messages, every state it passes through — after the message delete
and after the chat delete, in both the single-session and the all-sessions
branch — has no orphaned messages.  The DELETE path of src/api/chat-history.js
instead issues only a chat-row delete (see the counterexample), delegating
message cleanup entirely to the store. -/
theorem C9_delete_order (uid : String) (sessionId : Option Nat) (store : Store)
    (h : noOrphans store) :
    ∀ s ∈ newApiHandleDeleteStates uid sessionId store, noOrphans s := by
  intro s hs
  rcases sessionId with _ | sid
  · simp only [newApiHandleDeleteStates] at hs
    by_cases hempty :
        ((store.chats.filter (fun c => c.user_id = uid)).map ChatRow.id).isEmpty
    · simp only [hempty, if_true, List.mem_singleton] at hs
      subst hs
      exact h
    · simp only [hempty, Bool.false_eq_true, if_false, List.mem_cons,
        List.mem_singleton, List.not_mem_nil, or_false] at hs
      rcases hs with rfl | rfl | rfl
      · exact h
      · intro m hm
        exact h m (List.mem_filter.mp hm).1
      · intro m hm
        have hm' := List.mem_filter.mp hm
        have hnc := hm'.2
        simp only [Bool.not_eq_true', List.contains, List.elem_eq_mem,
          decide_eq_false_iff_not] at hnc
        obtain ⟨c, hc, hcid⟩ := h m hm'.1
        refine ⟨c, ?_, hcid⟩
        simp only [List.mem_filter]
        refine ⟨hc, ?_⟩
        simp only [Bool.not_eq_true', decide_eq_false_iff_not]
        intro hcu
        apply hnc
        rw [← hcid]
        exact List.mem_map_of_mem _ (List.mem_filter.mpr ⟨hc, by simp [hcu]⟩)
  · simp only [newApiHandleDeleteStates] at hs
    rcases hfind : store.chats.find? (fun c => c.id = sid && c.user_id = uid)
      with _ | chat
    · rw [hfind] at hs
      simp only [List.mem_singleton] at hs
      subst hs
      exact h
    · rw [hfind] at hs
      simp only [List.mem_cons, List.mem_singleton, List.not_mem_nil, or_false] at hs
      rcases hs with rfl | rfl | rfl
      · exact h
      · intro m hm
        simp only [deleteMessagesByChat] at hm
        exact h m (List.mem_filter.mp hm).1
      · intro m hm
        simp only [deleteChatById, deleteMessagesByChat] at hm ⊢
        have hm' := List.mem_filter.mp hm
        have hmsid := hm'.2
        simp only [Bool.not_eq_true', decide_eq_false_iff_not] at hmsid
        obtain ⟨c, hc, hcid⟩ := h m hm'.1
        refine ⟨c, ?_, hcid⟩
        simp only [List.mem_filter]
        refine ⟨hc, ?_⟩
        simp only [Bool.not_eq_true', decide_eq_false_iff_not]
        intro hceq
        rw [hcid] at hceq
        exact hmsid hceq

theorem C9_delete_order_witness :
    noOrphans (deleteChatById 1 (deleteMessagesByChat 1
      ⟨[⟨1, "u", "T"⟩], [⟨1, "user", "hi"⟩], 2⟩)) :=
  C9_delete_order "u" (some 1) ⟨[⟨1, "u", "T"⟩], [⟨1, "user", "hi"⟩], 2⟩
    (by decide) _ (by decide)

/-- C10: session creation in `saveToSupabase` is not atomic: when the chat
insert succeeds and the subsequent message insert fails, the function raises
the error while the freshly created session row remains in the store with no
message row attached to it — a session with zero messages exists after the
partial failure. -/
theorem C10_nonatomic_creation (uid : String) (msgs : List Msg) (text : String)
    (store : Store)
    (hfresh : ∀ m ∈ store.messages, m.chat_id ≠ store.nextId) :
    (saveToSupabase uid msgs text none none ⟨false, true⟩ store).2 =
      Except.error "Failed to save messages" ∧
    ∃ c ∈ (saveToSupabase uid msgs text none none ⟨false, true⟩ store).1.chats,
      c.id = store.nextId ∧ c.user_id = uid ∧
      ∀ m ∈ (saveToSupabase uid msgs text none none ⟨false, true⟩ store).1.messages,
        m.chat_id ≠ c.id := by
  constructor
  · simp [saveToSupabase]
  · refine ⟨⟨store.nextId, uid,
      generateChatTitle (((msgs.find? (fun m => m.role = "user")).map
        Msg.content).getD "New chat")⟩, ?_, rfl, rfl, ?_⟩
    · simp [saveToSupabase]
    · intro m hm
      simp only [saveToSupabase] at hm
      exact hfresh m hm

theorem C10_nonatomic_creation_witness :
    (saveToSupabase "u1" [⟨"user", "hi"⟩] "resp" none none ⟨false, true⟩
      emptyStore).2 = Except.error "Failed to save messages" ∧
    ∃ c ∈ (saveToSupabase "u1" [⟨"user", "hi"⟩] "resp" none none ⟨false, true⟩
        emptyStore).1.chats,
      c.id = emptyStore.nextId ∧ c.user_id = "u1" ∧
      ∀ m ∈ (saveToSupabase "u1" [⟨"user", "hi"⟩] "resp" none none ⟨false, true⟩
          emptyStore).1.messages,
        m.chat_id ≠ c.id :=
  C10_nonatomic_creation "u1" [⟨"user", "hi"⟩] "resp" emptyStore (by decide)

end Tomo
